import Mathlib

/-
  Shallow embedding of `src/src/hsm/yubikey/provider.rs`: the YubiKey PIV
  key-slot manager of this repository.  The embedded pieces are the fixed
  object-id table `SLOTS`, the metadata codec (`save_key_object` writing the
  NUL-delimited record, `parse_slot_data` reading it back), the free-slot scan
  `get_free_slot`, key lookup `load_key`, key provisioning `create_key`, and
  the module-setup method `initialize_module` (embedded under the name
  `init_module`).

  Modelling conventions:
  - Rust bytes (`u8`) are `Nat` values (all below 256 at every use site);
    a Rust `String` is the list of its UTF-8 bytes (`List Nat`).
  - The YubiKey device is a record `Device`: its PIV object store is a
    function from object id to `Option` bytes (`none` models
    `fetch_object` returning `Err`), and the outcome of `piv::generate`
    is a field of the device state, since the hardware is an external
    collaborator whose behaviour the provider only observes.
  - Fallible functions return `Res`, mirroring Rust `Result`.
  - The provider struct `YubiKeyProvider` and the configuration types are
    declared outside this file's source; they are modelled from the spec
    (see the doc comments of `Prov`, `KeyUsage`, `KeyAlgorithm`,
    `HsmProviderConfig`).

  The Rust source of `create_key`, `get_free_slot` and `initialize_module`
  contains constructs that rustc rejects (uninitialised local reads, values
  of the wrong type in return position, pattern names that bind instead of
  matching enum variants).  Every such point is embedded by an explicitly
  documented modelling decision at the smallest possible scope; the doc
  comment of each affected definition carries a SOURCE DEFECT note saying
  exactly what the source writes and how it is rendered here.
-/

namespace YkProvider

/-- Mirror of Rust `Result`: `ok` carries the success value, `err` the error. -/
inductive Res (α : Type) (ε : Type) where
  | ok (val : α) : Res α ε
  | err (e : ε) : Res α ε
  deriving DecidableEq

/-- Errors reported by the yubikey device crate, as far as this provider
    observes them: `notFound` (no token), `wrongPin` with the remaining tries,
    `pinLocked`, and `devFail` standing for any other opaque device error
    (the numeric code only distinguishes concrete instances in this file). -/
inductive YkError where
  | notFound : YkError
  | wrongPin (tries : Nat) : YkError
  | pinLocked : YkError
  | devFail (code : Nat) : YkError
  deriving DecidableEq

/-- Message payloads the source passes to `SecurityModuleError::Hsm` as string
    literals.  `keyNotFound` is `"Key not found"`, `configsFailed` is
    `"Failed to get the Configurations"`, `algoNotSupported` is
    `"Key Algorithm not supported"`, `usageNotSupported` is
    `"Key Usage not supported"`. -/
inductive HsmText where
  | keyNotFound : HsmText
  | configsFailed : HsmText
  | algoNotSupported : HsmText
  | usageNotSupported : HsmText
  deriving DecidableEq

/-- Message payload of `SecurityModuleError::InitializationError`:
    `noFreeSlotAvail` is the source string `"No free slot available"`. -/
inductive InitText where
  | noFreeSlotAvail : InitText
  deriving DecidableEq

/-- The provider error type as used by this source file.  SOURCE DEFECT: the
    source applies the `Hsm` constructor sometimes to a string literal,
    sometimes to a `yubikey::Error` value, and once (in `initialize_module`)
    to two arguments (a format string and a retry count); rustc accepts at
    most one of these payload types.  The embedding splits the three uses
    into `Hsm` (string messages, see `HsmText`), `HsmDev` (device errors)
    and `HsmRetries` (the two-argument use carrying the retry count). -/
inductive SecurityModuleError where
  | Hsm (msg : HsmText) : SecurityModuleError
  | HsmDev (e : YkError) : SecurityModuleError
  | HsmRetries (retries : Nat) : SecurityModuleError
  | InitializationError (msg : InitText) : SecurityModuleError
  deriving DecidableEq

/-- The fixed 20-entry PIV object-id table `SLOTS` of the source.  The loops
    of `load_key` and `get_free_slot` fetch `SLOTS[i]` for `i` in `10..19`
    and store `SLOTS[i - 10]` into `self.slot_id` on a hit. -/
def SLOTS : List Nat :=
  [0x005fc10d, 0x005fc10e, 0x005fc10f, 0x005fc110, 0x005fc111,
   0x005fc112, 0x005fc113, 0x005fc114, 0x005fc115, 0x005fc116,
   0x005fc117, 0x005fc118, 0x005fc119, 0x005fc11a, 0x005fc11b,
   0x005fc11c, 0x005fc11d, 0x005fc11e, 0x005fc11f, 0x005fc120]

/-- State of the attached YubiKey as this provider observes it.
    `objects` is the PIV data-object store: `none` models `fetch_object`
    returning `Err`, `some bytes` a successful fetch.  `genResult` is the
    outcome of a `piv::generate` call (`ok` carries the DER bytes of the
    generated public key).  `present`, `pinOk` and `pinRetries` model
    `YubiKey::open`, `verify_pin` and `get_pin_retries` for `init_module`
    (`pinRetries = none` models `get_pin_retries` returning `Err`). -/
structure Device where
  present : Bool
  pinOk : Bool
  pinRetries : Option Nat
  objects : Nat → Option (List Nat)
  genResult : Res (List Nat) YkError

/-- Bytes a fetch yields to the loop bodies of `load_key` and
    `get_free_slot`: both declare `let mut output: Vec<u8> = Vec::new();`
    and overwrite it only when `fetch_object` succeeded, so a failed fetch
    leaves the empty byte string. -/
def fetchBytes (dev : Device) (id : Nat) : List Nat :=
  (dev.objects id).getD []

/-- Modelled from the spec (data model, §3): the key-usage enum
    `{SignEncrypt, Decrypt}` of the `KeyUsage` type, which is declared in
    `common::crypto` outside this source file. -/
inductive KeyUsage where
  | SignEncrypt : KeyUsage
  | Decrypt : KeyUsage
  deriving DecidableEq

/-- Modelled from the spec (§4.4): the asymmetric key algorithm carried by
    the provider configuration, `key_algorithm ∈ {RSA-2048, ECC-P256}`;
    the type itself is declared outside this source file. -/
inductive KeyAlgorithm where
  | Rsa2048 : KeyAlgorithm
  | EccP256 : KeyAlgorithm
  deriving DecidableEq

/-- Modelled from the spec (§6, provider configuration boundary): the
    configuration struct `HsmProviderConfig` supplying `key_algorithm`
    and `key_usage`; declared in `crate::hsm` outside this source file. -/
structure HsmProviderConfig where
  key_algorithm : KeyAlgorithm
  key_usage : KeyUsage
  deriving DecidableEq

/-- The `Box<dyn ProviderConfig>` argument of `create_key` and `load_key`:
    `hsm` is a configuration whose `downcast_ref::<HsmProviderConfig>()`
    succeeds, `other` any configuration for which it fails. -/
inductive ProviderConfig where
  | hsm (cfg : HsmProviderConfig) : ProviderConfig
  | other : ProviderConfig

/-- Modelled from the spec (§3, ProviderState): the mutable fields of the
    `YubiKeyProvider` struct that this source file reads and writes —
    `key_algo`, `key_usages`, `slot_id`, `pkey`.  The session handle
    (`self.yubikey`) is passed separately as `Device`.  SOURCE DEFECT: the
    source assigns `self.key_usages = Some(..)` in `create_key` but
    `self.key_usages = KeyUsage::SignEncrypt` (no `Some`) in `load_key`;
    whichever declared type the struct has, one of the two assignments is
    ill-typed.  The embedding takes the field to be optional and wraps the
    `load_key` assignment in `some`. -/
structure Prov where
  key_algo : Option KeyAlgorithm
  key_usages : Option KeyUsage
  slot_id : Nat
  pkey : List Nat
  deriving DecidableEq

/-- UTF-8 bytes of the usage label `"sign"`. -/
def signLabel : List Nat := [115, 105, 103, 110]

/-- UTF-8 bytes of the usage label `"encrypt"`. -/
def encryptLabel : List Nat := [101, 110, 99, 114, 121, 112, 116]

/-- UTF-8 bytes of the usage label `"decrypt"`. -/
def decryptLabel : List Nat := [100, 101, 99, 114, 121, 112, 116]

/-- Rust `slice::split(|&x| x == 0)` on a byte string: splits at every NUL
    byte; `n` separators yield `n + 1` segments, including empty ones and
    a trailing empty segment when the data ends in NUL. -/
def splitOnZero : List Nat → List (List Nat)
  | [] => [[]]
  | b :: rest =>
    let s := splitOnZero rest
    if b = 0 then [] :: s else (b :: s.headD []) :: s.tail

/-- Whether a byte is a UTF-8 continuation byte (`0x80..=0xBF`). -/
def contB (b : Nat) : Bool := 128 ≤ b && b ≤ 191

/-- Admissible second byte of a three-byte UTF-8 sequence headed by `b`. -/
def e3first (b c1 : Nat) : Bool :=
  if b = 224 then 160 ≤ c1 && c1 ≤ 191
  else if b = 237 then 128 ≤ c1 && c1 ≤ 159
  else contB c1

/-- Admissible second byte of a four-byte UTF-8 sequence headed by `b`. -/
def e4first (b c1 : Nat) : Bool :=
  if b = 240 then 144 ≤ c1 && c1 ≤ 191
  else if b = 244 then 128 ≤ c1 && c1 ≤ 143
  else contB c1

/-- One sequence of the UTF-8 validity check per unit of fuel: an ASCII byte
    stands alone; a two-, three- or four-byte head must be followed by the
    admissible continuation bytes, which are then consumed as well.  A
    missing continuation byte is read as `headD 999`, which no admissibility
    test accepts, so truncated sequences are rejected.  Each step consumes at
    least one byte, so any fuel of at least the byte count decides the whole
    string; fuel running out with bytes left cannot happen then. -/
def validUtf8Go : Nat → List Nat → Bool
  | _, [] => true
  | 0, _ :: _ => false
  | fuel + 1, b :: rest =>
    if b ≤ 127 then validUtf8Go fuel rest
    else if b < 194 then false
    else if b ≤ 223 then contB (rest.headD 999) && validUtf8Go fuel rest.tail
    else if b ≤ 239 then
      e3first b (rest.headD 999) && contB (rest.tail.headD 999) &&
        validUtf8Go fuel rest.tail.tail
    else if b ≤ 244 then
      e4first b (rest.headD 999) && contB (rest.tail.headD 999) &&
        contB (rest.tail.tail.headD 999) && validUtf8Go fuel rest.tail.tail.tail
    else false

/-- UTF-8 validity of a byte string, as checked by Rust
    `std::str::from_utf8` (RFC 3629: no overlong forms, no surrogates,
    nothing above U+10FFFF). -/
def validUtf8 (l : List Nat) : Bool := validUtf8Go l.length l

/-- A byte string free of NUL bytes (the invariant §4.3 of the spec asks of
    record fields handed to the encoder). -/
def noZero (l : List Nat) : Bool := l.all fun b => b != 0

/-- Error type of `parse_slot_data`.  SOURCE DEFECT: the source declares the
    error type `Utf8Error` and builds its fallback value with
    `Utf8Error::from_bytes_without_nul(data)`, a constructor that does not
    exist on `std::str::Utf8Error`; the embedding collapses the error to a
    single point `malformed`, which is also how the two callers treat it
    (both only distinguish `Ok` from `Err`). -/
inductive ParseError where
  | malformed : ParseError
  deriving DecidableEq

/-- Field extraction step of `parse_slot_data`: the source evaluates
    `std::str::from_utf8(parts.get(i).ok_or(..)?)?` for each field, so a
    missing segment and an invalid-UTF-8 segment both abort the parse. -/
def getPart (parts : List (List Nat)) (i : Nat) : Res (List Nat) ParseError :=
  match parts.get? i with
  | some p => if validUtf8 p then .ok p else .err .malformed
  | none => .err .malformed

/-- Embeds `parse_slot_data`: splits the fetched bytes on NUL and decodes the
    first four segments (key name, slot string, usage label, public key) as
    UTF-8, failing if a segment is missing or not valid UTF-8.  Segments
    beyond the fourth are never examined, and the usage label is not
    compared against the known labels here (that happens in `load_key`). -/
def parse_slot_data (data : List Nat) :
    Res (List Nat × List Nat × List Nat × List Nat) ParseError :=
  let parts := splitOnZero data
  match getPart parts 0 with
  | .err e => .err e
  | .ok key_name =>
    match getPart parts 1 with
    | .err e => .err e
    | .ok slot =>
      match getPart parts 2 with
      | .err e => .err e
      | .ok usage =>
        match getPart parts 3 with
        | .err e => .err e
        | .ok public_key => .ok (key_name, slot, usage, public_key)

/-- Decimal digit bytes of a natural number, fuel-indexed so that the
    recursion is structural.  One digit is produced per step, so any fuel
    of at least the digit count — in particular the `n + 1` used by
    `natDecBytes` — yields the full decimal representation, exactly what
    Rust `u32::to_string` produces for the slot field. -/
def natDecBytesFuel : Nat → Nat → List Nat → List Nat
  | 0, _, acc => acc
  | fuel + 1, n, acc =>
    if n < 10 then (48 + n % 10) :: acc
    else natDecBytesFuel fuel (n / 10) ((48 + n % 10) :: acc)

/-- UTF-8 bytes of the decimal representation of `n` (Rust `n.to_string()`). -/
def natDecBytes (n : Nat) : List Nat := natDecBytesFuel (n + 1) n []

/-- The byte string `save_key_object` assembles: the source allocates a
    buffer of length `key_name.len() + 1 + slot.len() + 1 + usage.len() + 1 +
    public_key.len()` and copies the four fields into it with a single NUL
    after each of the first three, i.e. exactly this concatenation, with no
    trailing terminator. -/
def encodeRecord (key_name : List Nat) (slot_id : Nat) (usage : List Nat)
    (pkey : List Nat) : List Nat :=
  key_name ++ 0 :: (natDecBytes slot_id ++ 0 :: (usage ++ 0 :: pkey))

/-- Embeds `save_key_object`: builds the record bytes and stores them with
    `yubikey.save_object(slot_id, data)` — note that the object id written
    to is the same `slot_id` value that becomes the record's slot field.
    The device write is modelled as always succeeding; the only caller
    (`create_key`) discards the returned `Result` anyway. -/
def save_key_object (dev : Device) (usage : List Nat) (key_id : List Nat)
    (slot_id : Nat) (pkey : List Nat) : Device :=
  let data := encodeRecord key_id slot_id usage pkey
  { dev with objects := fun j => if j = slot_id then some data else dev.objects j }

/-- Loop of `load_key` over the index list (the source iterates
    `for i in 10..19`).  Per index: fetch `SLOTS[i]`, parse; on a parse
    error continue; on success, if the key name matches, first assign
    `self.slot_id = SLOTS[i - 10]`, then map the usage label — a label other
    than `"sign"`, `"encrypt"`, `"decrypt"` hits the `_ => continue` arm and
    skips the record (with `slot_id` already mutated); a known label sets
    `key_usages` and `pkey` and stops the scan. -/
def load_key_loop (dev : Device) (key_id : List Nat) :
    List Nat → Prov → Prov × Bool
  | [], prov => (prov, false)
  | i :: rest, prov =>
    match parse_slot_data (fetchBytes dev (SLOTS.getD i 0)) with
    | .err _ => load_key_loop dev key_id rest prov
    | .ok (key_name, _slot, usage, public_key) =>
      if key_name = key_id then
        let prov1 := { prov with slot_id := SLOTS.getD (i - 10) 0 }
        if usage = signLabel ∨ usage = encryptLabel then
          ({ prov1 with key_usages := some .SignEncrypt, pkey := public_key }, true)
        else if usage = decryptLabel then
          ({ prov1 with key_usages := some .Decrypt, pkey := public_key }, true)
        else load_key_loop dev key_id rest prov1
      else load_key_loop dev key_id rest prov

/-- Embeds `load_key`: scans object ids `SLOTS[10]` to `SLOTS[18]` (the
    source range `10..19` stops before index 19) and returns
    `Err(Hsm("Key not found"))` when the flag `found` stays false.  The
    `config` argument is accepted and ignored, as in the source. -/
def load_key (dev : Device) (_config : ProviderConfig) (key_id : List Nat)
    (prov : Prov) : Prov × Res Unit SecurityModuleError :=
  match load_key_loop dev key_id (List.range' 10 9) prov with
  | (p, true) => (p, .ok ())
  | (p, false) => (p, .err (.Hsm .keyNotFound))

/-- Per-iteration value of the `get_free_slot` loop body: `None` for the
    `Ok(_) => continue` arm, `Some (SLOTS[i - 10])` for the `Err(_)` arm.
    SOURCE DEFECT: the `Err(_) => SLOTS[i - 10]` arm has no `return`, so
    this value is computed and immediately discarded — the loop never exits
    early, which is why `get_free_slot` below ignores the scan. -/
def get_free_slot_scan (dev : Device) : List (Option Nat) :=
  (List.range' 10 9).map fun i =>
    match parse_slot_data (fetchBytes dev (SLOTS.getD i 0)) with
    | .ok _ => none
    | .err _ => some (SLOTS.getD (i - 10) 0)

/-- UTF-8 bytes of `"No free slot available"`. -/
def noFreeSlotText : List Nat :=
  [78, 111, 32, 102, 114, 101, 101, 32, 115, 108, 111, 116, 32,
   97, 118, 97, 105, 108, 97, 98, 108, 101]

/-- Embeds `get_free_slot`.  SOURCE DEFECT (two-fold): the loop body's
    `Err(_)` arm evaluates `SLOTS[i - 10]` without returning it (see
    `get_free_slot_scan`), so control always falls through the loop; and the
    function then ends in `Ok("No free slot available")`, a string in the
    success position of the declared `Result<u32, Error>` (rustc E0308).
    The embedding keeps the returned value as the byte string; the function
    is therefore constant in the device state, never reports a free slot,
    and never returns an `Err`. -/
def get_free_slot (dev : Device) : Res (List Nat) YkError :=
  let _ := get_free_slot_scan dev
  .ok noFreeSlotText

/-- Base64 alphabet of the STANDARD engine: index 0..61 are `A-Z`, `a-z`,
    `0-9`; 62 is `+`; 63 is `/`. -/
def b64Char (n : Nat) : Nat :=
  if n < 26 then 65 + n
  else if n < 52 then 97 + (n - 26)
  else if n < 62 then 48 + (n - 52)
  else if n = 62 then 43
  else 47

/-- Padded base64 of a byte string (`general_purpose::STANDARD.encode`). -/
def base64Encode : List Nat → List Nat
  | [] => []
  | [a] => [b64Char (a / 4), b64Char ((a % 4) * 16), 61, 61]
  | [a, b] => [b64Char (a / 4), b64Char ((a % 4) * 16 + b / 16), b64Char ((b % 16) * 4), 61]
  | a :: b :: c :: r =>
    b64Char (a / 4) :: b64Char ((a % 4) * 16 + b / 16) ::
      b64Char ((b % 16) * 4 + c / 64) :: b64Char (c % 64) :: base64Encode r

/-- ASCII whitespace test for the embedded `str::trim` (space, tab, line
    feed, carriage return; base64 output contains none of these, so the
    ASCII subset of Unicode whitespace is exact here). -/
def isWs (b : Nat) : Bool := b == 32 || b == 9 || b == 10 || b == 13

/-- Rust `str::trim` on a byte string: strip leading and trailing whitespace. -/
def trimAscii (l : List Nat) : List Nat :=
  ((l.dropWhile isWs).reverse.dropWhile isWs).reverse

/-- UTF-8 bytes of the PEM header `-----BEGIN PUBLIC KEY-----`. -/
def pemHeader : List Nat :=
  [45, 45, 45, 45, 45, 66, 69, 71, 73, 78, 32, 80, 85, 66, 76, 73, 67,
   32, 75, 69, 89, 45, 45, 45, 45, 45]

/-- UTF-8 bytes of the PEM footer `-----END PUBLIC KEY-----`. -/
def pemFooter : List Nat :=
  [45, 45, 45, 45, 45, 69, 78, 68, 32, 80, 85, 66, 76, 73, 67, 32, 75,
   69, 89, 45, 45, 45, 45, 45]

/-- The public-key string `create_key` stores into `self.pkey`: the DER
    bytes of the generated key, base64-encoded, trimmed, and wrapped in PEM
    armor with single line feeds (the source `format!` call). -/
def pemWrap (der : List Nat) : List Nat :=
  pemHeader ++ 10 :: (trimAscii (base64Encode der) ++ 10 :: pemFooter)

/-- Algorithm identifier passed to `piv::generate`. -/
inductive AlgorithmId where
  | Rsa2048 : AlgorithmId
  | EccP256 : AlgorithmId
  deriving DecidableEq

/-- Stand-in for the value `create_key` assigns to `self.slot_id` from the
    `Ok` payload of `get_free_slot`.  SOURCE DEFECT: that payload is the
    string `"No free slot available"` (see `get_free_slot`), which has no
    `u32` value; the embedding uses a fixed number that is not an element
    of `SLOTS`.  No theorem in this file depends on the choice. -/
def ILLTYPED_SLOT : Nat := 4294967295

/-- Stand-in for the object id `create_key` passes to `save_key_object` on
    its fresh-provisioning path.  SOURCE DEFECT: the local `slot` is
    declared `let mut slot: u32;` and never assigned on that path, so the
    call `save_key_object(yubikey, usage, key_id, slot, &self.pkey)` reads
    an uninitialised variable (rustc E0381).  The embedding uses a fixed
    number that is not an element of `SLOTS`.  No theorem in this file
    depends on the choice beyond it lying outside the scanned id range. -/
def UNINIT_OBJECT : Nat := 4294967294

/-- Result bundle of the embedded `create_key`: the returned `Result`, the
    mutated provider state, the device state after any metadata write, and
    three observables of the execution path — `reused` is true exactly when
    the `else` branch ran (the initial `load_key` succeeded), `genAlg` is
    the algorithm passed to `piv::generate` when generation was reached,
    and `usageLabel` is the final value of the `usage` local. -/
structure CreateOut where
  res : Res Unit SecurityModuleError
  prov : Prov
  dev : Device
  reused : Bool
  genAlg : Option AlgorithmId
  usageLabel : List Nat

/-- Embeds `create_key`.  Control flow of the source, in order: downcast the
    configuration (failure returns `Hsm("Failed to get the Configurations")`);
    assign `self.key_algo` and `self.key_usages` from the configuration;
    call `self.load_key(key_id, config)`; branch on its success; afterwards
    call `save_key_object` unconditionally and return `Ok(())`, discarding
    the save result.

    SOURCE DEFECT (branch selection): both branches match on
    `self.key_usages` with the bare names `SignEncrypt` / `Decrypt` as
    patterns, and inside on `self.key_algo` with bare `Rsa` / `Ecc`.  None
    of these names is an imported enum variant, so each is an irrefutable
    binding pattern and the first arm always matches (rustc reports the
    later arms as unreachable).  Every call therefore takes the
    RSA-2048 / usage `"encrypt"` arm, whatever the configuration says; the
    `"sign"`, `"decrypt"`, `"Key Algorithm not supported"` and
    `"Key Usage not supported"` arms are dead code.  The embedding inlines
    the one reachable arm of each branch.

    SOURCE DEFECT (fresh path): on the not-found path the `Ok(free)` arm of
    `get_free_slot` assigns the ill-typed payload to `self.slot_id`
    (embedded as `ILLTYPED_SLOT`), and the save step reads the
    uninitialised local `slot` (embedded as `UNINIT_OBJECT`); the `Err` arm
    returning `InitializationError("No free slot available")` is kept but
    is unreachable because `get_free_slot` always returns `Ok`.

    On the found path the source sets `slot = self.slot_id` — the value
    `load_key` just fetched, an element of `SLOTS[0..9]` — and saves there. -/
def create_key (key_id : List Nat) (config : ProviderConfig) (prov : Prov)
    (dev : Device) : CreateOut :=
  match config with
  | .other => ⟨.err (.Hsm .configsFailed), prov, dev, false, none, []⟩
  | .hsm cfg =>
    match load_key dev config key_id
        { prov with key_algo := some cfg.key_algorithm,
                    key_usages := some cfg.key_usage } with
    | (prov2, .err _) =>
      match get_free_slot dev with
      | .err _ =>
        ⟨.err (.InitializationError .noFreeSlotAvail), prov2, dev, false, none, []⟩
      | .ok _free =>
        match dev.genResult with
        | .err e =>
          ⟨.err (.HsmDev e), { prov2 with slot_id := ILLTYPED_SLOT }, dev,
            false, some .Rsa2048, encryptLabel⟩
        | .ok der =>
          let p4 := { prov2 with slot_id := ILLTYPED_SLOT, pkey := pemWrap der }
          ⟨.ok (), p4, save_key_object dev encryptLabel key_id UNINIT_OBJECT p4.pkey,
            false, some .Rsa2048, encryptLabel⟩
    | (prov2, .ok _) =>
      match dev.genResult with
      | .err e => ⟨.err (.HsmDev e), prov2, dev, true, some .Rsa2048, encryptLabel⟩
      | .ok der =>
        let p4 := { prov2 with pkey := pemWrap der }
        ⟨.ok (), p4, save_key_object dev encryptLabel key_id prov2.slot_id p4.pkey,
          true, some .Rsa2048, encryptLabel⟩

/-- Outcome of the embedded module setup: success, a returned error, or a
    Rust panic (`unwrap` on an `Err`). -/
inductive InitOutcome where
  | ok : InitOutcome
  | err (e : SecurityModuleError) : InitOutcome
  | panics : InitOutcome
  deriving DecidableEq

/-- Embeds `initialize_module`.  SOURCE DEFECT: the source runs
    `YubiKey::open().map_err(|_| Error::NotFound).unwrap()`, so an absent
    token panics instead of surfacing an error.  On a failed
    `verify_pin("123456")` the `map_err` closure evaluates
    `yubikey.get_pin_retries().unwrap()` (a panic when that device call
    fails) and the function returns
    `SecurityModuleError::Hsm("Failed to verify PIN, retries: {}", count)` —
    a two-argument application of a one-argument constructor (rustc E0061),
    embedded as `HsmRetries count`; the `WrongPin` value built by the
    closure is discarded. -/
def init_module (dev : Device) : InitOutcome :=
  if dev.present = false then .panics
  else if dev.pinOk = true then .ok
  else
    match dev.pinRetries with
    | none => .panics
    | some n => .err (.HsmRetries n)

/-- UTF-8 bytes of the sample key id `"k1"` used by the concrete scenarios. -/
def keyK1 : List Nat := [107, 49]

/-- Provider state as it stands before any operation. -/
def provInit : Prov := ⟨none, none, 0, []⟩

/-- Configuration requesting RSA-2048 with usage SignEncrypt. -/
def cfgRsaSign : HsmProviderConfig := ⟨.Rsa2048, .SignEncrypt⟩

/-- Configuration requesting ECC-P256 with usage SignEncrypt. -/
def cfgEccSign : HsmProviderConfig := ⟨.EccP256, .SignEncrypt⟩

/-- A device with token present, PIN accepted, an empty object store (every
    fetch fails), and key generation succeeding with DER bytes `[1, 2, 3]`. -/
def emptyDevice : Device := ⟨true, true, some 3, fun _ => none, .ok [1, 2, 3]⟩

/-- A device whose every object slot holds a well-formed record: no slot of
    the pool is free. -/
def fullDevice : Device :=
  ⟨true, true, some 3, fun _ => some (encodeRecord keyK1 0 signLabel [112]),
   .ok [1, 2, 3]⟩

/-- A device holding one well-formed record for key `"k1"` (usage `"sign"`,
    public key `"OLD"` = bytes 79, 76, 68) in the first scanned object slot
    `SLOTS[10] = 0x5fc117`. -/
def devStale : Device :=
  ⟨true, true, some 3,
   fun j => if j = 0x005fc117 then some (encodeRecord keyK1 0 signLabel [79, 76, 68])
            else none,
   .ok [1, 2, 3]⟩

/-- A device whose only record — well-formed, for key `"k1"`, usage
    `"sign"` — sits in the pool's last object slot `SLOTS[19] = 0x5fc120`. -/
def dev19 : Device :=
  ⟨true, true, some 3,
   fun j => if j = 0x005fc120 then some (encodeRecord keyK1 9 signLabel [112])
            else none,
   .ok [1, 2, 3]⟩

/-- A device holding a record for key `"k1"` with usage `"decrypt"` in the
    first scanned object slot, and whose key generation fails. -/
def devUsageClash : Device :=
  ⟨true, true, some 3,
   fun j => if j = 0x005fc117 then some (encodeRecord keyK1 0 decryptLabel [112])
            else none,
   .err (.devFail 9)⟩

/-- A device with an empty object store whose key generation fails. -/
def devGenFail : Device := ⟨true, true, some 3, fun _ => none, .err (.devFail 7)⟩

/-- A device with no token attached (`YubiKey::open()` fails). -/
def devNoToken : Device := ⟨false, true, some 3, fun _ => none, .ok []⟩

/-- A device that rejects the PIN and reports 2 remaining retries. -/
def devBadPin : Device := ⟨true, false, some 2, fun _ => none, .ok []⟩

/-- Result of `create_key("k1", {RSA-2048, SignEncrypt})` on `devStale`. -/
def outStale : CreateOut := create_key keyK1 (.hsm cfgRsaSign) provInit devStale

/-- Result of `create_key("k1", {ECC-P256, SignEncrypt})` on the empty pool. -/
def outFresh : CreateOut := create_key keyK1 (.hsm cfgEccSign) provInit emptyDevice

/-- Result of repeating `create_key("k1", {ECC-P256, SignEncrypt})` on the
    provider and device state left by `outFresh`. -/
def outSecond : CreateOut :=
  create_key keyK1 (.hsm cfgEccSign) outFresh.prov outFresh.dev

/-- Result of `create_key("k1", {RSA-2048, SignEncrypt})` on `devUsageClash`. -/
def outClash : CreateOut := create_key keyK1 (.hsm cfgRsaSign) provInit devUsageClash

/-- The membership form of `noZero`. -/
theorem noZero_iff (l : List Nat) : noZero l = true ↔ ∀ b ∈ l, b ≠ 0 := by
  simp [noZero, List.all_eq_true, bne_iff_ne]

/-- Splitting a byte string that starts with a NUL-free block followed by a
    NUL separator yields that block as the first segment. -/
theorem splitOnZero_append_zero (a : List Nat) (r : List Nat)
    (h : ∀ b ∈ a, b ≠ 0) : splitOnZero (a ++ 0 :: r) = a :: splitOnZero r := by
  induction a with
  | nil => simp [splitOnZero]
  | cons x xs ih =>
    have hx : x ≠ 0 := h x (List.mem_cons_self x xs)
    have hxs : ∀ b ∈ xs, b ≠ 0 := fun b hb => h b (List.mem_cons_of_mem x hb)
    simp [splitOnZero, hx, ih hxs]

/-- Splitting a NUL-free byte string yields the single segment itself. -/
theorem splitOnZero_no_zero (a : List Nat) (h : ∀ b ∈ a, b ≠ 0) :
    splitOnZero a = [a] := by
  induction a with
  | nil => rfl
  | cons x xs ih =>
    have hx : x ≠ 0 := h x (List.mem_cons_self x xs)
    have hxs : ∀ b ∈ xs, b ≠ 0 := fun b hb => h b (List.mem_cons_of_mem x hb)
    simp [splitOnZero, hx, ih hxs]

/-- A byte string of ASCII bytes passes the fuelled UTF-8 check whenever the
    fuel covers its length. -/
theorem validUtf8Go_ascii (fuel : Nat) : ∀ l : List Nat, (∀ b ∈ l, b ≤ 127) →
    l.length ≤ fuel → validUtf8Go fuel l = true := by
  induction fuel with
  | zero =>
    intro l h hl
    cases l with
    | nil => rfl
    | cons b rest => simp at hl
  | succ f ih =>
    intro l h hl
    cases l with
    | nil => rfl
    | cons b rest =>
      have hb : b ≤ 127 := h b (List.mem_cons_self b rest)
      simp only [validUtf8Go, if_pos hb]
      exact ih rest (fun x hx => h x (List.mem_cons_of_mem b hx))
        (by simpa using Nat.le_of_succ_le_succ hl)

/-- A byte string of ASCII bytes is valid UTF-8. -/
theorem validUtf8_of_ascii (l : List Nat) (h : ∀ b ∈ l, b ≤ 127) :
    validUtf8 l = true :=
  validUtf8Go_ascii l.length l h (Nat.le_refl _)

/-- Every byte the fuel-indexed digit writer emits is an ASCII digit,
    provided the accumulator already consists of ASCII digits. -/
theorem natDecBytesFuel_digits (fuel : Nat) :
    ∀ n acc, (∀ b ∈ acc, 48 ≤ b ∧ b ≤ 57) →
      ∀ b ∈ natDecBytesFuel fuel n acc, 48 ≤ b ∧ b ≤ 57 := by
  induction fuel with
  | zero => intro n acc h b hb; exact h b hb
  | succ f ih =>
    intro n acc h b hb
    have hmod : n % 10 < 10 := Nat.mod_lt n (by omega)
    by_cases hn : n < 10
    · simp only [natDecBytesFuel, if_pos hn] at hb
      rcases List.mem_cons.mp hb with hb | hb
      · omega
      · exact h b hb
    · simp only [natDecBytesFuel, if_neg hn] at hb
      refine ih (n / 10) ((48 + n % 10) :: acc) ?_ b hb
      intro c hc
      rcases List.mem_cons.mp hc with hc | hc
      · omega
      · exact h c hc

/-- Every byte of the decimal representation is an ASCII digit. -/
theorem natDecBytes_digits (n : Nat) : ∀ b ∈ natDecBytes n, 48 ≤ b ∧ b ≤ 57 :=
  natDecBytesFuel_digits (n + 1) n [] (by simp)

/-- Some segment of a list fails the UTF-8 check iff `all` over the list
    fails. -/
theorem exists_invalid_iff (l : List (List Nat)) :
    (∃ p ∈ l, validUtf8 p = false) ↔ l.all validUtf8 = false := by
  induction l with
  | nil => simp
  | cons x xs ih =>
    rw [List.exists_mem_cons_iff, List.all_cons]
    cases hx : validUtf8 x with
    | false =>
      rw [Bool.false_and]
      exact iff_of_true (Or.inl rfl) rfl
    | true =>
      rw [Bool.true_and]
      constructor
      · rintro (h | h)
        · cases h
        · exact ih.mp h
      · intro h
        exact Or.inr (ih.mpr h)

/-- Frame property of the `load_key` scan: the loop never touches
    `key_algo`, and when it ends without a hit it has not touched
    `key_usages` either (it may still have mutated `slot_id`, which the
    source assigns before checking the usage label). -/
theorem load_key_loop_frame (dev : Device) (key_id : List Nat)
    (idxs : List Nat) : ∀ p : Prov,
    ((load_key_loop dev key_id idxs p).1.key_algo = p.key_algo) ∧
      ((load_key_loop dev key_id idxs p).2 = false →
        (load_key_loop dev key_id idxs p).1.key_usages = p.key_usages) := by
  induction idxs with
  | nil => intro p; exact ⟨rfl, fun _ => rfl⟩
  | cons i rest ih =>
    intro p
    simp only [load_key_loop]
    split
    · exact ih p
    · split_ifs with hk hu hd
      · exact ⟨rfl, fun h => nomatch h⟩
      · exact ⟨rfl, fun h => nomatch h⟩
      · simpa using ih { p with slot_id := SLOTS.getD (i - 10) 0 }
      · exact ih p

/-- C5: for every record whose field values are NUL-free (and, being Rust
    strings, valid UTF-8), decoding the encoding returns the record
    unchanged: `parse_slot_data` on the bytes `save_key_object` assembles
    yields back the key name, the decimal slot string, the usage label and
    the public key. -/
theorem c5_metadata_roundtrip (key_name usage pkey : List Nat) (slot_id : Nat)
    (h1 : noZero key_name = true) (h2 : noZero usage = true)
    (h3 : noZero pkey = true) (h4 : validUtf8 key_name = true)
    (h5 : validUtf8 usage = true) (h6 : validUtf8 pkey = true) :
    parse_slot_data (encodeRecord key_name slot_id usage pkey) =
      .ok (key_name, natDecBytes slot_id, usage, pkey) := by
  have hn1 := (noZero_iff key_name).mp h1
  have hn2 := (noZero_iff usage).mp h2
  have hn3 := (noZero_iff pkey).mp h3
  have hdig := natDecBytes_digits slot_id
  have hnd : ∀ b ∈ natDecBytes slot_id, b ≠ 0 := by
    intro b hb
    have := hdig b hb
    omega
  have hvd : validUtf8 (natDecBytes slot_id) = true := by
    refine validUtf8_of_ascii _ ?_
    intro b hb
    have := hdig b hb
    omega
  have hsplit : splitOnZero (encodeRecord key_name slot_id usage pkey) =
      [key_name, natDecBytes slot_id, usage, pkey] := by
    unfold encodeRecord
    rw [splitOnZero_append_zero _ _ hn1, splitOnZero_append_zero _ _ hnd,
      splitOnZero_append_zero _ _ hn2, splitOnZero_no_zero _ hn3]
  simp [parse_slot_data, hsplit, getPart, List.get?, h4, h5, h6, hvd]

/-- Witness for C5 at the concrete record `("k1", 3, "sign", "p")`. -/
theorem c5_metadata_roundtrip_witness :
    parse_slot_data (encodeRecord keyK1 3 signLabel [112]) =
      .ok (keyK1, natDecBytes 3, signLabel, [112]) :=
  c5_metadata_roundtrip keyK1 signLabel [112] 3 (by decide) (by decide)
    (by decide) (by decide) (by decide) (by decide)

/-- C6 counterexample: a four-field record whose usage segment is `"foo"` —
    none of the three known labels — is decoded successfully by
    `parse_slot_data`, so decoding does not fail on an unrecognised usage
    label as the claim states. -/
theorem c6_usage_not_checked_cex :
    ([102, 111, 111] ≠ signLabel ∧ [102, 111, 111] ≠ encryptLabel ∧
        [102, 111, 111] ≠ decryptLabel) ∧
      parse_slot_data [97, 0, 49, 0, 102, 111, 111, 0, 112] =
        .ok ([97], [49], [102, 111, 111], [112]) := by
  decide

/-- C6 as amended: `parse_slot_data` fails exactly when splitting on NUL
    yields fewer than 4 segments or one of the first four segments is not
    valid UTF-8; the usage label is not validated by decoding (and segments
    beyond the fourth are never examined).  In particular a record
    truncated to 2 NUL-delimited fields fails to decode. -/
theorem c6_decode_failure_amended :
    (∀ data : List Nat,
        parse_slot_data data = .err .malformed ↔
          ((splitOnZero data).length < 4 ∨
            ∃ p ∈ (splitOnZero data).take 4, validUtf8 p = false)) ∧
      parse_slot_data [107, 49, 0, 115, 53] = .err .malformed := by
  constructor
  · intro data
    rcases hsp : splitOnZero data with _ | ⟨a, _ | ⟨b, _ | ⟨c, _ | ⟨d, t⟩⟩⟩⟩
    · simp [parse_slot_data, hsp, getPart, List.get?]
    · cases hva : validUtf8 a <;>
        simp [parse_slot_data, hsp, getPart, List.get?, hva]
    · cases hva : validUtf8 a <;> cases hvb : validUtf8 b <;>
        simp [parse_slot_data, hsp, getPart, List.get?, hva, hvb]
    · cases hva : validUtf8 a <;> cases hvb : validUtf8 b <;>
        cases hvc : validUtf8 c <;>
        simp [parse_slot_data, hsp, getPart, List.get?, hva, hvb, hvc]
    · cases hva : validUtf8 a <;> cases hvb : validUtf8 b <;>
        cases hvc : validUtf8 c <;> cases hvd : validUtf8 d <;>
        simp [parse_slot_data, hsp, getPart, List.get?, List.take,
          List.exists_mem_cons_iff, hva, hvb, hvc, hvd]
  · decide

/-- C7: whenever the device's key generation fails, `create_key` returns the
    wrapped device error and leaves the device state — in particular every
    object slot — untouched: the metadata write is never reached. -/
theorem c7_gen_failure_no_write (key_id : List Nat) (cfg : HsmProviderConfig)
    (prov : Prov) (dev : Device) (e : YkError)
    (hg : dev.genResult = .err e) :
    (create_key key_id (.hsm cfg) prov dev).res = .err (.HsmDev e) ∧
      (create_key key_id (.hsm cfg) prov dev).dev = dev := by
  rcases hLoop : load_key_loop dev key_id (List.range' 10 9)
      { prov with key_algo := some cfg.key_algorithm,
                  key_usages := some cfg.key_usage } with ⟨p2, found⟩
  cases found <;>
    simp [create_key, load_key, hLoop, hg, get_free_slot]

/-- Witness for C7: on an empty pool whose generation step fails with device
    error 7, `create_key` returns that error and the device is unchanged. -/
theorem c7_gen_failure_no_write_witness :
    (create_key keyK1 (.hsm cfgRsaSign) provInit devGenFail).res =
        .err (.HsmDev (.devFail 7)) ∧
      (create_key keyK1 (.hsm cfgRsaSign) provInit devGenFail).dev =
        devGenFail :=
  c7_gen_failure_no_write keyK1 cfgRsaSign provInit devGenFail (.devFail 7) rfl

/-- C1 divergence witness: on `devStale` (a stored record for `"k1"` with
    public key `"OLD"` in the first scanned object slot),
    `create_key("k1", {RSA-2048, SignEncrypt})` returns success, but the
    immediately following `load_key` — although it also returns success —
    yields the stale public key `"OLD"`, not the PEM key `create_key`
    recorded in the provider state: the metadata write went to object id
    `slot_id` (a `SLOTS[0..9]` value), which the scan of `SLOTS[10..18]`
    never reads. -/
theorem c1_create_then_load_divergence :
    outStale.res = .ok () ∧
      (load_key outStale.dev (.hsm cfgRsaSign) keyK1 outStale.prov).2 =
        .ok () ∧
      (load_key outStale.dev (.hsm cfgRsaSign) keyK1 outStale.prov).1.pkey =
        [79, 76, 68] ∧
      outStale.prov.pkey ≠ [79, 76, 68] := by
  decide

/-- C2 divergence witness: `create_key("k1", {ECC-P256, SignEncrypt})` on an
    empty pool succeeds but passes RSA-2048 to the device generation call
    and stores the usage label `"encrypt"` — not ECC-P256 with `"sign"` as
    the claim's mapping table requires — because the usage/algorithm match
    arms are irrefutable binding patterns. -/
theorem c2_mapping_divergence :
    outFresh.res = .ok () ∧ outFresh.genAlg = some AlgorithmId.Rsa2048 ∧
      outFresh.usageLabel = encryptLabel := by
  decide

/-- C3 divergence witness: on a device whose every fetch fails (the whole
    pool is free) the loop of `get_free_slot` computes the lowest free slot
    value `SLOTS[0] = 0x5fc10d` in its first iteration — and discards it:
    the function returns `Ok` with the `"No free slot available"` text, and
    returns exactly the same on a device whose pool is completely full. -/
theorem c3_free_slot_divergence :
    (get_free_slot_scan emptyDevice).headD none = some 0x005fc10d ∧
      get_free_slot emptyDevice = .ok noFreeSlotText ∧
      get_free_slot fullDevice = .ok noFreeSlotText := by
  decide

/-- C4 divergence witness: a well-formed record for key `"k1"` stored in the
    pool's last object slot `SLOTS[19] = 0x5fc120` decodes fine, yet
    `load_key("k1")` reports the key as not found, because the source loop
    `for i in 10..19` stops at index 18 and never scans the last slot of
    the 10-pair pool. -/
theorem c4_scan_divergence :
    parse_slot_data (encodeRecord keyK1 9 signLabel [112]) =
        .ok (keyK1, [57], signLabel, [112]) ∧
      (load_key dev19 (.hsm cfgRsaSign) keyK1 provInit).2 =
        .err (.Hsm .keyNotFound) := by
  decide

/-- C8 divergence witness: after a successful
    `create_key("k1", {ECC-P256, SignEncrypt})` on an empty pool, repeating
    the same call does not take the reuse path: the first call's metadata
    write is invisible to `load_key`, so the second call's lookup fails and
    it runs the fresh-allocation branch again. -/
theorem c8_no_reuse_divergence :
    outFresh.res = .ok () ∧ outSecond.res = .ok () ∧
      outSecond.reused = false := by
  decide

/-- C9 divergence witness: with no token attached the module setup panics
    (it unwraps the failed `open`) instead of returning a `DeviceNotFound`
    error; with a wrong PIN and 2 retries left it returns the retry count
    inside an `Hsm` message error rather than a `WrongPin` value. -/
theorem c9_open_unwrap_divergence :
    init_module devNoToken = .panics ∧
      init_module devBadPin = .err (.HsmRetries 2) := by
  decide

/-- C10 counterexample: on `devUsageClash` (a stored `"decrypt"` record for
    `"k1"` and a failing generation step), `create_key("k1", {RSA-2048,
    SignEncrypt})` returns an error, and at that exit `key_usages` holds
    `Decrypt` — the value `load_key` copied from the stored record — not
    the requested `SignEncrypt`, contradicting the claim that both fields
    reflect the configuration on every erroring call. -/
theorem c10_usage_overwritten_cex :
    outClash.res = .err (.HsmDev (.devFail 9)) ∧
      outClash.prov.key_usages = some KeyUsage.Decrypt := by
  decide

/-- C10 as amended: `create_key` overwrites `key_algo` with the
    configuration's algorithm immediately after the downcast, and nothing
    later touches it, so it reflects the request at every exit; `key_usages`
    is likewise overwritten first, and still reflects the request at every
    exit on which the embedded lookup found no record for the key id — when
    a record is found, `load_key` overwrites `key_usages` with the stored
    record's usage. -/
theorem c10_overwrite_amended (key_id : List Nat) (cfg : HsmProviderConfig)
    (prov : Prov) (dev : Device) :
    (create_key key_id (.hsm cfg) prov dev).prov.key_algo =
        some cfg.key_algorithm ∧
      ((load_key dev (.hsm cfg) key_id
            { prov with key_algo := some cfg.key_algorithm,
                        key_usages := some cfg.key_usage }).2 =
          .err (.Hsm .keyNotFound) →
        (create_key key_id (.hsm cfg) prov dev).prov.key_usages =
          some cfg.key_usage) := by
  rcases hLoop : load_key_loop dev key_id (List.range' 10 9)
      { prov with key_algo := some cfg.key_algorithm,
                  key_usages := some cfg.key_usage } with ⟨p2, found⟩
  have hfr := load_key_loop_frame dev key_id (List.range' 10 9)
      { prov with key_algo := some cfg.key_algorithm,
                  key_usages := some cfg.key_usage }
  rw [hLoop] at hfr
  simp only at hfr
  cases found with
  | false =>
    constructor
    · cases hg : dev.genResult <;>
        simp [create_key, load_key, hLoop, hg, get_free_slot, hfr.1]
    · intro hB
      cases hg : dev.genResult <;>
        simp [create_key, load_key, hLoop, hg, get_free_slot, hfr.2 rfl]
  | true =>
    constructor
    · cases hg : dev.genResult <;>
        simp [create_key, load_key, hLoop, hg, hfr.1]
    · intro hB
      simp only [load_key, hLoop] at hB
      exact nomatch hB

/-- Witness for C10 as amended, at a fresh provisioning on an empty pool:
    both fields reflect the requested configuration. -/
theorem c10_overwrite_amended_witness :
    (create_key keyK1 (.hsm cfgRsaSign) provInit emptyDevice).prov.key_algo =
        some KeyAlgorithm.Rsa2048 ∧
      (create_key keyK1 (.hsm cfgRsaSign) provInit emptyDevice).prov.key_usages =
        some KeyUsage.SignEncrypt :=
  ⟨(c10_overwrite_amended keyK1 cfgRsaSign provInit emptyDevice).1,
    (c10_overwrite_amended keyK1 cfgRsaSign provInit emptyDevice).2 (by decide)⟩

end YkProvider
